import Mathlib

/-!
Shallow embedding of the Solana DeFi agent skill's connection pool
(`getNextRpcUrl`, `initRpcUrls`, `getConnection`, `getFreshConnection`)
and Blinks executor (`parseBlinkUrl`, `decodeTransaction`, `getTransaction`,
`signAndSend`, `simulate`, `inspect`).

External library calls (`@solana/web3.js` deserializers, `fetch`, `JSON`,
the WHATWG `URL` class, base64 decoding) are modelled as function
parameters or as executable models of their standard behavior; all state
(the module-level round-robin cursor, cached connection, and RPC-URL
cache) is threaded explicitly through a `PoolState`.
-/

namespace SolanaDefi

/-! ## JavaScript string helpers, modelled over `List Char` so that all
definitions reduce in the kernel. -/

/-- JS truthiness of an optional string: `undefined` and `""` are falsy. -/
def truthy : Option String → Bool
  | some s => s ≠ ""
  | none => false

/-- Split a character list at every occurrence of a separator character
(models JS `String.prototype.split` with a one-character separator). -/
def splitCharList (sep : Char) : List Char → List (List Char)
  | [] => [[]]
  | c :: cs =>
    let r := splitCharList sep cs
    if c = sep then [] :: r
    else
      match r with
      | [] => [[c]]
      | y :: ys => (c :: y) :: ys

/-- JS `s.split(sep)` for a one-character separator. -/
def jsSplitChar (sep : Char) (s : String) : List String :=
  (splitCharList sep s.toList).map List.asString

/-- Whitespace recognized by JS `String.prototype.trim`. -/
def isJsWhitespace (c : Char) : Bool :=
  c = ' ' || c = '\t' || c = '\n' || c = '\r'

/-- JS `s.trim()`. -/
def jsTrim (s : String) : String :=
  (((s.toList.dropWhile isJsWhitespace).reverse.dropWhile isJsWhitespace).reverse).asString

/-- JS `s.startsWith(pre)`. -/
def jsStartsWith (s pre : String) : Bool :=
  pre.toList.isPrefixOf s.toList

/-- JS `s.slice(n)`. -/
def jsSlice (s : String) (n : Nat) : String :=
  (s.toList.drop n).asString

/-! ## Connection pool (round-robin RPC management) -/

/-- The environment variables read by `initRpcUrls`. -/
structure Env where
  SOLANA_RPC_URLS : Option String
  SOLANA_RPC_URL : Option String
deriving Repr, DecidableEq

/-- The hardcoded public mainnet endpoint (`RPC_ENDPOINTS.mainnet`). -/
def mainnetEndpoint : String := "https://api.mainnet-beta.solana.com"

/-- A constructed `Connection` object; `id` models JS object identity
(each `new Connection(...)` yields a distinct `id`). -/
structure Connection where
  rpcEndpoint : String
  commitment : String
  id : Nat
deriving Repr, DecidableEq

/-- The module-level mutable state of the connection module:
`rpcUrls`, `currentRpcIndex`, `defaultConnection`, plus a counter
supplying fresh object identities. -/
structure PoolState where
  rpcUrls : List String
  currentRpcIndex : Nat
  defaultConnection : Option Connection
  nextConnId : Nat
deriving Repr, DecidableEq

/-- The state at module load: empty URL list, cursor 0, no cached connection. -/
def PoolState.initial : PoolState :=
  { rpcUrls := [], currentRpcIndex := 0, defaultConnection := none, nextConnId := 0 }

/-- `multipleRpcs.split(',').map(url => url.trim()).filter(Boolean)`. -/
def parseUrlList (s : String) : List String :=
  ((jsSplitChar ',' s).map jsTrim).filter (fun u => u ≠ "")

/-- The pure resolution inside `initRpcUrls` when the cache is empty:
comma-separated `SOLANA_RPC_URLS` first, then `SOLANA_RPC_URL` as a
singleton, then the hardcoded public endpoint. -/
def resolveRpcUrls (env : Env) : List String :=
  let multi :=
    if truthy env.SOLANA_RPC_URLS then parseUrlList (env.SOLANA_RPC_URLS.getD "") else []
  let withSingle :=
    if multi.length = 0 then
      (if truthy env.SOLANA_RPC_URL then [env.SOLANA_RPC_URL.getD ""] else [])
    else multi
  if withSingle.length = 0 then [mainnetEndpoint] else withSingle

/-- `initRpcUrls()`: returns the cached list when non-empty; otherwise
resolves from the environment and caches the result. -/
def initRpcUrls (env : Env) (s : PoolState) : List String × PoolState :=
  if s.rpcUrls.length > 0 then (s.rpcUrls, s)
  else
    let urls := resolveRpcUrls env
    (urls, { s with rpcUrls := urls })

/-- `getNextRpcUrl()`: returns `urls[currentRpcIndex]` and advances the
cursor modulo the list length. (An out-of-range read would be JS
`undefined`, modelled by the `getD` default.) -/
def getNextRpcUrl (env : Env) (s : PoolState) : String × PoolState :=
  let r := initRpcUrls env s
  (r.1.getD r.2.currentRpcIndex "undefined",
   { r.2 with currentRpcIndex := (r.2.currentRpcIndex + 1) % r.1.length })

/-- `new Connection(url, {commitment, ...})`: constructs a fresh object. -/
def newConnection (url commitment : String) (s : PoolState) : Connection × PoolState :=
  ({ rpcEndpoint := url, commitment := commitment, id := s.nextConnId },
   { s with nextConnId := s.nextConnId + 1 })

/-- `getConnection(rpcUrl?, commitment)`: `url = rpcUrl || getNextRpcUrl()`;
a new connection is constructed and cached iff there is no cached
connection, or an explicit (truthy) URL differs from the cached endpoint. -/
def getConnection (env : Env) (rpcUrl : Option String) (commitment : String)
    (s : PoolState) : Connection × PoolState :=
  let p := if truthy rpcUrl then (rpcUrl.getD "", s) else getNextRpcUrl env s
  match p.2.defaultConnection with
  | none =>
    let q := newConnection p.1 commitment p.2
    (q.1, { q.2 with defaultConnection := some q.1 })
  | some c0 =>
    if truthy rpcUrl && (rpcUrl.getD "" != c0.rpcEndpoint) then
      let q := newConnection p.1 commitment p.2
      (q.1, { q.2 with defaultConnection := some q.1 })
    else
      (c0, p.2)

/-- `getFreshConnection(commitment)`: always constructs a brand-new
connection from the next round-robin endpoint; never cached. -/
def getFreshConnection (env : Env) (commitment : String) (s : PoolState) :
    Connection × PoolState :=
  let r := getNextRpcUrl env s
  newConnection r.1 commitment r.2

/-- `k` consecutive calls to `getNextRpcUrl`, collecting the returned URLs. -/
def runNext (env : Env) : Nat → PoolState → List String × PoolState
  | 0, s => ([], s)
  | k + 1, s =>
    let r := getNextRpcUrl env s
    let rest := runNext env k r.2
    (r.1 :: rest.1, rest.2)

/-- `k` consecutive no-argument calls to `getConnection`, collecting the
returned connections. -/
def runGetConnection (env : Env) (commitment : String) :
    Nat → PoolState → List Connection × PoolState
  | 0, s => ([], s)
  | k + 1, s =>
    let r := getConnection env none commitment s
    let rest := runGetConnection env commitment k r.2
    (r.1 :: rest.1, rest.2)

/-! ## Blinks executor: data types -/

/-- A parameter schema entry carried through `inspect` unchanged. -/
structure BlinkParameter where
  name : String
  label : String
deriving Repr, DecidableEq

/-- An entry of `metadata.links.actions`. -/
structure LinkedAction where
  label : String
  href : String
  parameters : Option (List BlinkParameter)
deriving Repr, DecidableEq

/-- The `links` field of blink metadata. -/
structure BlinkLinks where
  actions : List LinkedAction
deriving Repr, DecidableEq

/-- Blink metadata returned by the describe GET. -/
structure BlinkMetadata where
  label : String
  icon : String
  description : String
  links : Option BlinkLinks
deriving Repr, DecidableEq

/-- The build POST's artifact: a base64 transaction plus optional message. -/
structure BlinkTransaction where
  transaction : String
  message : Option String
deriving Repr, DecidableEq

/-- `parseBlinkUrl`: strip a leading `blink:` (6 characters) if present. -/
def parseBlinkUrl (blinkUrl : String) : String :=
  if jsStartsWith blinkUrl "blink:" then jsSlice blinkUrl 6 else blinkUrl

/-! ## Model of the WHATWG `URL` object (the parts the source uses:
`origin`, `searchParams.set`, `toString`). -/

/-- A parsed URL: origin (`scheme://host`), pathname, and the ordered
query parameter list. -/
structure URLModel where
  origin : String
  pathname : String
  query : List (String × String)
deriving Repr, DecidableEq

/-- Split a character list at the first occurrence of `"://"`. -/
def breakAtSchemeSep : List Char → Option (List Char × List Char)
  | [] => none
  | ':' :: '/' :: '/' :: rest => some ([], rest)
  | c :: rest =>
    match breakAtSchemeSep rest with
    | none => none
    | some (a, b) => some (c :: a, b)

/-- Parse a `k=v` query pair (value may contain further `=`). -/
def parseQueryPair (s : String) : String × String :=
  let l := s.toList
  let k := l.takeWhile (fun c => c ≠ '=')
  let rest := l.dropWhile (fun c => c ≠ '=')
  (k.asString, (rest.drop 1).asString)

/-- Parse a query string `k1=v1&k2=v2&...`. -/
def parseQuery (q : String) : List (String × String) :=
  if q = "" then [] else (jsSplitChar '&' q).map parseQueryPair

/-- `new URL(s)`: split off the query at the first `?`, the origin at the
first `"://"` plus the host up to the first `/`. -/
def parseURL (s : String) : URLModel :=
  let l := s.toList
  let base := (l.takeWhile (fun c => c ≠ '?')).asString
  let queryStr := ((l.dropWhile (fun c => c ≠ '?')).drop 1).asString
  match breakAtSchemeSep base.toList with
  | none => { origin := base, pathname := "", query := parseQuery queryStr }
  | some (scheme, rest) =>
    let host := rest.takeWhile (fun c => c ≠ '/')
    let path := rest.dropWhile (fun c => c ≠ '/')
    { origin := scheme.asString ++ "://" ++ host.asString,
      pathname := path.asString,
      query := parseQuery queryStr }

/-- `url.toString()`: origin, pathname, and the serialized query. -/
def URLModel.render (u : URLModel) : String :=
  u.origin ++ u.pathname ++
    (if u.query.isEmpty then ""
     else "?" ++ String.intercalate "&" (u.query.map (fun p => p.1 ++ "=" ++ p.2)))

/-- `url.searchParams.set(k, v)`: overwrite the first entry with key `k`
(removing any further entries with that key), or append a new entry. -/
def searchParamsSet : List (String × String) → String → String → List (String × String)
  | [], k, v => [(k, v)]
  | (k0, v0) :: rest, k, v =>
    if k0 = k then (k, v) :: rest.filter (fun p => p.1 ≠ k)
    else (k0, v0) :: searchParamsSet rest k v

/-- A `string | number` parameter value. -/
inductive ParamValue
  | str (s : String)
  | num (n : Int)
deriving Repr, DecidableEq

/-- JS `String(value)` on a parameter value. -/
def ParamValue.toJS : ParamValue → String
  | .str s => s
  | .num n => toString n

/-- The query-merging step of `getTransaction`: when `params` is
non-empty, parse the URL, `searchParams.set` each entry in order, and
re-serialize; otherwise the URL string is used unchanged. -/
def mergeParams (url : String) (params : List (String × ParamValue)) : String :=
  if params.isEmpty then url
  else
    let u := parseURL url
    let q := params.foldl (fun q p => searchParamsSet q p.1 p.2.toJS) u.query
    URLModel.render { u with query := q }

/-! ## Blinks executor: HTTP-facing operations -/

/-- HTTP method of a fetch request. -/
inductive HttpMethod
  | GET
  | POST
deriving Repr, DecidableEq

/-- A fetch request as issued by `getTransaction`. -/
structure FetchRequest where
  url : String
  method : HttpMethod
  accept : String
  contentType : Option String
  body : Option String
deriving Repr, DecidableEq

/-- A fetch response as consumed by `getTransaction`: `ok`/`status`, the
body text (`none` models a failing `response.text()`), and the body
parsed as a transaction artifact (`none` models failing `response.json()`). -/
structure FetchResponse where
  ok : Bool
  status : Nat
  statusText : String
  textResult : Option String
  jsonTx : Option BlinkTransaction
deriving Repr, DecidableEq

/-- `JSON.stringify({ account: walletAddress })`. -/
def jsonAccountBody (walletAddress : String) : String :=
  "\x7b\"account\":\"" ++ walletAddress ++ "\"\x7d"

/-- The error message thrown on a non-2xx build response. -/
def buildErrorMessage (status : Nat) (errorText : String) : String :=
  "Failed to get blink transaction: " ++ toString status ++ " - " ++ errorText

/-- The POST request assembled by `getTransaction`: normalized URL with
merged params, JSON `{ account }` body, JSON accept/content-type headers. -/
def buildRequest (blinkUrl walletAddress : String)
    (params : List (String × ParamValue)) : FetchRequest :=
  { url := mergeParams (parseBlinkUrl blinkUrl) params,
    method := .POST,
    accept := "application/json",
    contentType := some "application/json",
    body := some (jsonAccountBody walletAddress) }

/-- `getTransaction(blinkUrl, walletAddress, params?)`, with the network
abstracted as a `fetch : FetchRequest → FetchResponse` parameter. Returns
the issued request together with the outcome: on a non-2xx response it
throws `buildErrorMessage` (body text falling back to "Unknown error");
otherwise the parsed JSON artifact. -/
def getTransaction (fetch : FetchRequest → FetchResponse)
    (blinkUrl walletAddress : String) (params : List (String × ParamValue)) :
    FetchRequest × Except String BlinkTransaction :=
  let req := buildRequest blinkUrl walletAddress params
  let response := fetch req
  if !response.ok then
    (req, .error (buildErrorMessage response.status (response.textResult.getD "Unknown error")))
  else
    match response.jsonTx with
    | some tx => (req, .ok tx)
    | none => (req, .error "Unexpected end of JSON input")

/-! ## Transaction decoding (`decodeTransaction`) -/

/-- An opaque versioned transaction produced by
`VersionedTransaction.deserialize`. -/
structure VersionedTx where
  bytes : List Nat
deriving Repr, DecidableEq

/-- An opaque legacy transaction produced by `Transaction.from`. -/
structure LegacyTx where
  bytes : List Nat
deriving Repr, DecidableEq

/-- The decoder's result: one of the two transaction encodings. -/
inductive DecodedTx
  | versioned (t : VersionedTx)
  | legacy (t : LegacyTx)
deriving Repr, DecidableEq

/-- `decodeTransaction(base64Tx)`: base64-decode, try the versioned
deserializer first, and on any failure fall back to the legacy parser,
whose error (if any) propagates. The two external deserializers and the
base64 decoder are parameters. -/
def decodeTransaction (vDeserialize : List Nat → Except String VersionedTx)
    (lFrom : List Nat → Except String LegacyTx)
    (base64Decode : String → List Nat) (base64Tx : String) :
    Except String DecodedTx :=
  let buffer := base64Decode base64Tx
  match vDeserialize buffer with
  | .ok v => .ok (.versioned v)
  | .error _ =>
    match lFrom buffer with
    | .ok l => .ok (.legacy l)
    | .error e => .error e

/-! ## simulate -/

/-- An on-chain error object as reported in the simulation response's
`err` field (a JSON object / non-empty enum string, hence JS-truthy). -/
structure TxErr where
  details : String
deriving Repr, DecidableEq

/-- The `value` of the RPC `simulateTransaction` response. -/
structure SimResponseValue where
  err : Option TxErr
  logs : Option (List String)
  unitsConsumed : Option Nat
deriving Repr, DecidableEq

/-- The result object returned by `simulate`. -/
structure SimulateResult where
  success : Bool
  logs : Option (List String)
  error : Option String
  unitsConsumed : Option Nat
deriving Repr, DecidableEq

/-- `simulate(blinkTx)`: decode, dry-run via the RPC (a parameter), and
shape the result: `success` iff `err` is null, `error` the stringified
error when present, logs and compute units carried over (`?? undefined`
is the identity on options). -/
def simulate (vDeserialize : List Nat → Except String VersionedTx)
    (lFrom : List Nat → Except String LegacyTx)
    (base64Decode : String → List Nat)
    (stringify : TxErr → String)
    (simulateRpc : DecodedTx → SimResponseValue)
    (blinkTx : BlinkTransaction) : Except String SimulateResult :=
  match decodeTransaction vDeserialize lFrom base64Decode blinkTx.transaction with
  | .error e => .error e
  | .ok tx =>
    let result := simulateRpc tx
    .ok { success := result.err.isNone,
          logs := result.logs,
          error := result.err.map stringify,
          unitsConsumed := result.unitsConsumed }

/-! ## signAndSend -/

/-- An RPC side effect performed by `signAndSend`, in order. -/
inductive RpcEvent
  | sentRaw (raw : List Nat) (skipPreflight : Bool) (maxRetries : Nat)
  | gotLatestBlockhash
  | confirmedTx (signature blockhash : String) (lastValidBlockHeight : Nat)
deriving Repr, DecidableEq

/-- The connection's send-path RPC surface, abstracted. -/
structure SendRpc where
  sendRawTransaction : List Nat → Except String String
  latestBlockhash : String × Nat
  confirmTx : String → Except String Unit
deriving Inhabited

/-- `signAndSend(blinkTx, signTransaction)`: decode, invoke the
caller-supplied signer, serialize, broadcast with `skipPreflight:false`
and `maxRetries:3`, fetch the latest blockhash, and confirm. Returns the
outcome together with the ordered trace of RPC effects performed; an
exception at any step stops the sequence there. -/
def signAndSend (vDeserialize : List Nat → Except String VersionedTx)
    (lFrom : List Nat → Except String LegacyTx)
    (base64Decode : String → List Nat)
    (serialize : DecodedTx → List Nat)
    (rpc : SendRpc)
    (blinkTx : BlinkTransaction)
    (signTransaction : DecodedTx → Except String DecodedTx) :
    Except String String × List RpcEvent :=
  match decodeTransaction vDeserialize lFrom base64Decode blinkTx.transaction with
  | .error e => (.error e, [])
  | .ok tx =>
    match signTransaction tx with
    | .error e => (.error e, [])
    | .ok signedTx =>
      let raw := serialize signedTx
      match rpc.sendRawTransaction raw with
      | .error e => (.error e, [.sentRaw raw false 3])
      | .ok signature =>
        let bh := rpc.latestBlockhash
        let trace := [RpcEvent.sentRaw raw false 3, .gotLatestBlockhash,
                      .confirmedTx signature bh.1 bh.2]
        match rpc.confirmTx signature with
        | .error e => (.error e, trace)
        | .ok _ => (.ok signature, trace)

/-! ## inspect -/

/-- One entry of the action list assembled by `inspect`. -/
structure InspectAction where
  label : String
  href : String
  parameters : Option (List BlinkParameter)
deriving Repr, DecidableEq

/-- The record returned by `inspect`. -/
structure InspectResult where
  url : String
  metadata : BlinkMetadata
  actions : List InspectAction
deriving Repr, DecidableEq

/-- The href resolution inside `inspect`'s linked-action loop:
`action.href.startsWith('http') ? action.href : origin + action.href`. -/
def resolveHref (origin href : String) : String :=
  if jsStartsWith href "http" then href else origin ++ href

/-- `inspect(blinkUrl)`, with the already-fetched metadata passed in
(`getMetadata` is an external GET). A main action is added when the
top-level label is truthy and there are no linked actions; each linked
action's href is resolved against the describing URL's origin. -/
def inspect (blinkUrl : String) (metadata : BlinkMetadata) : InspectResult :=
  let url := parseBlinkUrl blinkUrl
  let mainActions : List InspectAction :=
    if metadata.label ≠ "" &&
       (match metadata.links with
        | none => true
        | some l => l.actions.isEmpty) then
      [{ label := metadata.label, href := url, parameters := none }]
    else []
  let linkedActions : List InspectAction :=
    match metadata.links with
    | none => []
    | some l =>
      l.actions.map (fun a =>
        { label := a.label,
          href := resolveHref (parseURL url).origin a.href,
          parameters := a.parameters })
  { url := url, metadata := metadata, actions := mainActions ++ linkedActions }

/-! ## Supporting lemmas: connection pool -/

theorem initRpcUrls_cached (env : Env) (s : PoolState) (h : s.rpcUrls ≠ []) :
    initRpcUrls env s = (s.rpcUrls, s) := by
  unfold initRpcUrls
  rw [if_pos (List.length_pos.mpr h)]

theorem getNextRpcUrl_cached (env : Env) (s : PoolState) (h : s.rpcUrls ≠ []) :
    getNextRpcUrl env s =
      (s.rpcUrls.getD s.currentRpcIndex "undefined",
       { s with currentRpcIndex := (s.currentRpcIndex + 1) % s.rpcUrls.length }) := by
  unfold getNextRpcUrl
  rw [initRpcUrls_cached env s h]

theorem map_getD_range (l : List String) (d : String) :
    (List.range l.length).map (fun j => l.getD j d) = l := by
  induction l with
  | nil => simp
  | cons a t ih =>
    rw [List.length_cons, List.range_succ_eq_map, List.map_cons, List.map_map]
    simp only [List.getD_cons_zero, Function.comp_def, List.getD_cons_succ]
    rw [ih]

theorem runNext_spec (env : Env) (k : Nat) :
    ∀ s : PoolState, s.rpcUrls ≠ [] → s.currentRpcIndex < s.rpcUrls.length →
      runNext env k s =
        ((List.range k).map
          (fun j => s.rpcUrls.getD ((s.currentRpcIndex + j) % s.rpcUrls.length) "undefined"),
         { s with currentRpcIndex := (s.currentRpcIndex + k) % s.rpcUrls.length }) := by
  induction k with
  | zero =>
    intro s h hidx
    simp [runNext, Nat.mod_eq_of_lt hidx]
  | succ k ih =>
    intro s h hidx
    have hN : 0 < s.rpcUrls.length := List.length_pos.mpr h
    have hmod : ∀ j : Nat,
        ((s.currentRpcIndex + 1) % s.rpcUrls.length + j) % s.rpcUrls.length
          = (s.currentRpcIndex + (j + 1)) % s.rpcUrls.length := by
      intro j
      rw [Nat.mod_add_mod]
      congr 1
      omega
    simp only [runNext]
    rw [getNextRpcUrl_cached env s h]
    rw [ih { s with currentRpcIndex := (s.currentRpcIndex + 1) % s.rpcUrls.length }
          h (Nat.mod_lt _ hN)]
    simp only [List.range_succ_eq_map, List.map_cons, List.map_map, Function.comp_def,
               Prod.mk.injEq, List.cons.injEq, PoolState.mk.injEq, true_and, and_true]
    refine ⟨⟨?_, ?_⟩, ?_⟩
    · rw [Nat.add_zero, Nat.mod_eq_of_lt hidx]
    · exact List.map_congr_left (fun j _ => by rw [hmod j])
    · rw [hmod k]

/-- Claim C1: with the round-robin cursor at its initial position 0 and a
non-empty configured endpoint list of length N, N consecutive calls to
`getNextRpcUrl` return each configured endpoint exactly once in the
configured order, and the (N+1)-th call returns the first endpoint again. -/
theorem C1_round_robin_cycle (env : Env) (s : PoolState)
    (hne : s.rpcUrls ≠ []) (hidx : s.currentRpcIndex = 0) :
    (runNext env s.rpcUrls.length s).1 = s.rpcUrls ∧
    (getNextRpcUrl env (runNext env s.rpcUrls.length s).2).1 = s.rpcUrls.headI := by
  have hN : 0 < s.rpcUrls.length := List.length_pos.mpr hne
  have h1 := runNext_spec env s.rpcUrls.length s hne (by rw [hidx]; exact hN)
  constructor
  · simp only [h1, hidx, Nat.zero_add]
    have hcongr :
        (List.range s.rpcUrls.length).map
            (fun j => s.rpcUrls.getD (j % s.rpcUrls.length) "undefined")
          = (List.range s.rpcUrls.length).map (fun j => s.rpcUrls.getD j "undefined") :=
      List.map_congr_left (fun j hj => by rw [Nat.mod_eq_of_lt (List.mem_range.mp hj)])
    rw [hcongr]
    exact map_getD_range _ _
  · simp only [h1]
    rw [getNextRpcUrl_cached env
      { s with currentRpcIndex :=
          (s.currentRpcIndex + s.rpcUrls.length) % s.rpcUrls.length } hne]
    simp only [hidx, Nat.zero_add, Nat.mod_self]
    revert hne
    cases s.rpcUrls with
    | nil => intro hne; exact absurd rfl hne
    | cons a t => intro _; rfl

/-- Concrete witness for C1: three endpoints `a, b, c` starting from the
initial state: the first three calls yield `a, b, c`, the fourth `a`. -/
theorem C1_round_robin_cycle_witness :
    (runNext ⟨none, none⟩ 3
        { PoolState.initial with rpcUrls := ["a", "b", "c"] }).1 = ["a", "b", "c"] ∧
    (getNextRpcUrl ⟨none, none⟩
        (runNext ⟨none, none⟩ 3
          { PoolState.initial with rpcUrls := ["a", "b", "c"] }).2).1 = "a" := by
  have h := C1_round_robin_cycle ⟨none, none⟩
    { PoolState.initial with rpcUrls := ["a", "b", "c"] } (by decide) rfl
  exact ⟨h.1, h.2⟩

theorem resolveRpcUrls_ne_nil (env : Env) : resolveRpcUrls env ≠ [] := by
  have hfinal : ∀ l : List String, (if l.length = 0 then [mainnetEndpoint] else l) ≠ [] := by
    intro l
    split_ifs with h
    · simp
    · intro hh
      rw [hh] at h
      exact h rfl
  simp only [resolveRpcUrls]
  exact hfinal _

/-- Claim C2: endpoint-list resolution is deterministic with fixed
precedence (comma-separated multi source, then single source, then the
hardcoded mainnet endpoint), never yields an empty list, and once a
non-empty list is cached every later call returns it unchanged regardless
of the environment. -/
theorem C2_resolution_precedence (env env2 : Env) (s : PoolState) :
    (s.rpcUrls = [] → ∀ ms, env.SOLANA_RPC_URLS = some ms → parseUrlList ms ≠ [] →
        (initRpcUrls env s).1 = parseUrlList ms) ∧
    (s.rpcUrls = [] →
        (env.SOLANA_RPC_URLS = none ∨ parseUrlList (env.SOLANA_RPC_URLS.getD "") = []) →
        ∀ u, env.SOLANA_RPC_URL = some u → u ≠ "" →
        (initRpcUrls env s).1 = [u]) ∧
    (s.rpcUrls = [] →
        (env.SOLANA_RPC_URLS = none ∨ parseUrlList (env.SOLANA_RPC_URLS.getD "") = []) →
        (env.SOLANA_RPC_URL = none ∨ env.SOLANA_RPC_URL = some "") →
        (initRpcUrls env s).1 = [mainnetEndpoint]) ∧
    (initRpcUrls env s).1 ≠ [] ∧
    (s.rpcUrls ≠ [] → initRpcUrls env2 s = (s.rpcUrls, s)) := by
  refine ⟨?_, ?_, ?_, ?_, ?_⟩
  · intro hempty ms hms hparse
    have hms0 : ms ≠ "" := by
      intro h0
      rw [h0] at hparse
      exact hparse (by decide)
    unfold initRpcUrls resolveRpcUrls
    simp [hempty, hms, truthy, hms0, List.length_eq_zero, hparse]
  · intro hempty hmulti u hu hu0
    unfold initRpcUrls resolveRpcUrls
    rcases hmulti with h | h
    · simp [hempty, h, hu, truthy, hu0]
    · cases hE : env.SOLANA_RPC_URLS with
      | none => simp [hempty, hE, hu, truthy, hu0]
      | some ms =>
        rw [hE] at h
        simp only [Option.getD_some] at h
        by_cases hms : ms = ""
        · subst hms
          simp [hempty, hE, hu, truthy, hu0]
        · simp [hempty, hE, hu, truthy, hu0, hms, h]
  · intro hempty hmulti hsingle
    have hm : (if truthy env.SOLANA_RPC_URLS
        then parseUrlList (env.SOLANA_RPC_URLS.getD "") else []) = [] := by
      rcases hmulti with h | h
      · simp [h, truthy]
      · simp [h]
    have hs : (if truthy env.SOLANA_RPC_URL
        then [env.SOLANA_RPC_URL.getD ""] else []) = [] := by
      rcases hsingle with h | h <;> simp [h, truthy]
    unfold initRpcUrls resolveRpcUrls
    simp [hempty, hm, hs]
  · unfold initRpcUrls
    split_ifs with h
    · simpa using List.length_pos.mp h
    · simpa using resolveRpcUrls_ne_nil env
  · exact initRpcUrls_cached env2 s

/-- Concrete witness for C2: each precedence level and the caching
behavior, exercised at concrete environments and states. -/
theorem C2_resolution_precedence_witness :
    (initRpcUrls ⟨some "a, b", none⟩ PoolState.initial).1 = parseUrlList "a, b" ∧
    (initRpcUrls ⟨none, some "x"⟩ PoolState.initial).1 = ["x"] ∧
    (initRpcUrls ⟨none, none⟩ PoolState.initial).1 = [mainnetEndpoint] ∧
    initRpcUrls ⟨some "z", none⟩ { PoolState.initial with rpcUrls := ["cached"] }
      = (["cached"], { PoolState.initial with rpcUrls := ["cached"] }) := by
  refine ⟨?_, ?_, ?_, ?_⟩
  · exact (C2_resolution_precedence ⟨some "a, b", none⟩ ⟨none, none⟩
      PoolState.initial).1 rfl "a, b" rfl (by decide)
  · exact (C2_resolution_precedence ⟨none, some "x"⟩ ⟨none, none⟩
      PoolState.initial).2.1 rfl (Or.inl rfl) "x" rfl (by decide)
  · exact (C2_resolution_precedence ⟨none, none⟩ ⟨none, none⟩
      PoolState.initial).2.2.1 rfl (Or.inl rfl) (Or.inl rfl)
  · exact (C2_resolution_precedence ⟨none, none⟩ ⟨some "z", none⟩
      { PoolState.initial with rpcUrls := ["cached"] }).2.2.2.2 (by decide)

theorem getNextRpcUrl_preserves (env : Env) (s : PoolState) :
    (getNextRpcUrl env s).2.defaultConnection = s.defaultConnection ∧
    (getNextRpcUrl env s).2.nextConnId = s.nextConnId := by
  unfold getNextRpcUrl initRpcUrls
  split_ifs <;> simp

theorem getConnection_none_cached (env : Env) (comm : String) (s : PoolState)
    (c : Connection) (h : s.defaultConnection = some c) :
    getConnection env none comm s = (c, (getNextRpcUrl env s).2) := by
  have hd := (getNextRpcUrl_preserves env s).1
  unfold getConnection
  simp only [truthy, Bool.false_eq_true, if_false]
  rw [hd, h]
  simp

theorem runGetConnection_cached (env : Env) (comm : String) (k : Nat) :
    ∀ (s : PoolState) (c : Connection), s.defaultConnection = some c →
      (runGetConnection env comm k s).1 = List.replicate k c := by
  induction k with
  | zero =>
    intro s c _
    simp [runGetConnection]
  | succ k ih =>
    intro s c h
    have hgc := getConnection_none_cached env comm s c h
    have h2 : (getConnection env none comm s).2.defaultConnection = some c := by
      rw [hgc]
      exact (getNextRpcUrl_preserves env s).1.trans h
    simp only [runGetConnection, List.replicate_succ]
    rw [ih _ c h2, hgc]

/-- Claim C3: with no explicit URL, every call after the first returns the
connection object cached by the first call; a new connection object is
constructed (fresh `id`, counter bump) exactly when no cached connection
exists yet or an explicit URL differs from the cached endpoint, and an
explicit URL equal to the cached endpoint reuses the cache. -/
theorem C3_connection_memoization (env : Env) (comm : String) (s : PoolState) :
    (s.defaultConnection = none →
        (getConnection env none comm s).2.defaultConnection
            = some (getConnection env none comm s).1 ∧
        (getConnection env none comm s).2.nextConnId = s.nextConnId + 1 ∧
        ∀ k, (runGetConnection env comm k (getConnection env none comm s).2).1
              = List.replicate k (getConnection env none comm s).1) ∧
    (∀ c, s.defaultConnection = some c →
        (getConnection env none comm s).1 = c ∧
        (getConnection env none comm s).2.nextConnId = s.nextConnId) ∧
    (∀ c, s.defaultConnection = some c → ∀ url, url ≠ "" → url = c.rpcEndpoint →
        (getConnection env (some url) comm s).1 = c ∧
        (getConnection env (some url) comm s).2.nextConnId = s.nextConnId) ∧
    (∀ c, s.defaultConnection = some c → ∀ url, url ≠ "" → url ≠ c.rpcEndpoint →
        (getConnection env (some url) comm s).1.rpcEndpoint = url ∧
        (getConnection env (some url) comm s).1.id = s.nextConnId ∧
        (getConnection env (some url) comm s).2.nextConnId = s.nextConnId + 1 ∧
        (getConnection env (some url) comm s).2.defaultConnection
            = some (getConnection env (some url) comm s).1) := by
  refine ⟨?_, ?_, ?_, ?_⟩
  · intro h
    have hd := (getNextRpcUrl_preserves env s).1
    have hn := (getNextRpcUrl_preserves env s).2
    have hgc : getConnection env none comm s =
        (⟨(getNextRpcUrl env s).1, comm, (getNextRpcUrl env s).2.nextConnId⟩,
         { (getNextRpcUrl env s).2 with
            nextConnId := (getNextRpcUrl env s).2.nextConnId + 1,
            defaultConnection :=
              some ⟨(getNextRpcUrl env s).1, comm, (getNextRpcUrl env s).2.nextConnId⟩ }) := by
      unfold getConnection newConnection
      simp only [truthy, Bool.false_eq_true, if_false]
      rw [hd, h]
    refine ⟨by rw [hgc], by rw [hgc]; simpa using hn, fun k => ?_⟩
    refine runGetConnection_cached env comm k _ _ ?_
    rw [hgc]
  · intro c h
    have hgc := getConnection_none_cached env comm s c h
    exact ⟨by rw [hgc], by rw [hgc]; exact (getNextRpcUrl_preserves env s).2⟩
  · intro c h url hne heq
    unfold getConnection
    have ht : truthy (some url) = true := by simp [truthy, hne]
    simp only [ht, if_true, Option.getD_some]
    rw [h]
    simp [heq]
  · intro c h url hne hdiff
    unfold getConnection newConnection
    have ht : truthy (some url) = true := by simp [truthy, hne]
    simp only [ht, if_true, Option.getD_some]
    rw [h]
    simp [hdiff, bne_iff_ne]

/-- Concrete witness for C3: a first no-argument call on an empty cache
creates and caches a connection that two further calls return unchanged;
a cached connection is reused for no argument and a matching URL, and
replaced for a differing URL. -/
theorem C3_connection_memoization_witness :
    ((getConnection ⟨none, none⟩ none "confirmed"
        { rpcUrls := ["a", "b"], currentRpcIndex := 0,
          defaultConnection := none, nextConnId := 0 }).2.nextConnId = 1 ∧
      (runGetConnection ⟨none, none⟩ "confirmed" 2
        (getConnection ⟨none, none⟩ none "confirmed"
          { rpcUrls := ["a", "b"], currentRpcIndex := 0,
            defaultConnection := none, nextConnId := 0 }).2).1
        = List.replicate 2
            (getConnection ⟨none, none⟩ none "confirmed"
              { rpcUrls := ["a", "b"], currentRpcIndex := 0,
                defaultConnection := none, nextConnId := 0 }).1) ∧
    (getConnection ⟨none, none⟩ none "confirmed"
        { rpcUrls := ["a", "b"], currentRpcIndex := 0,
          defaultConnection := some ⟨"a", "confirmed", 0⟩, nextConnId := 5 }).1
      = ⟨"a", "confirmed", 0⟩ ∧
    (getConnection ⟨none, none⟩ (some "a") "confirmed"
        { rpcUrls := ["a", "b"], currentRpcIndex := 0,
          defaultConnection := some ⟨"a", "confirmed", 0⟩, nextConnId := 5 }).2.nextConnId
      = 5 ∧
    (getConnection ⟨none, none⟩ (some "u") "confirmed"
        { rpcUrls := ["a", "b"], currentRpcIndex := 0,
          defaultConnection := some ⟨"a", "confirmed", 0⟩, nextConnId := 5 }).1.id = 5 := by
  refine ⟨⟨?_, ?_⟩, ?_, ?_, ?_⟩
  · exact ((C3_connection_memoization ⟨none, none⟩ "confirmed"
      { rpcUrls := ["a", "b"], currentRpcIndex := 0,
        defaultConnection := none, nextConnId := 0 }).1 rfl).2.1
  · exact ((C3_connection_memoization ⟨none, none⟩ "confirmed"
      { rpcUrls := ["a", "b"], currentRpcIndex := 0,
        defaultConnection := none, nextConnId := 0 }).1 rfl).2.2 2
  · exact ((C3_connection_memoization ⟨none, none⟩ "confirmed"
      { rpcUrls := ["a", "b"], currentRpcIndex := 0,
        defaultConnection := some ⟨"a", "confirmed", 0⟩, nextConnId := 5 }).2.1
      ⟨"a", "confirmed", 0⟩ rfl).1
  · exact ((C3_connection_memoization ⟨none, none⟩ "confirmed"
      { rpcUrls := ["a", "b"], currentRpcIndex := 0,
        defaultConnection := some ⟨"a", "confirmed", 0⟩, nextConnId := 5 }).2.2.1
      ⟨"a", "confirmed", 0⟩ rfl "a" (by decide) rfl).2
  · exact ((C3_connection_memoization ⟨none, none⟩ "confirmed"
      { rpcUrls := ["a", "b"], currentRpcIndex := 0,
        defaultConnection := some ⟨"a", "confirmed", 0⟩, nextConnId := 5 }).2.2.2
      ⟨"a", "confirmed", 0⟩ rfl "u" (by decide) (by decide)).2.1

theorem getConnection_none_pool_fields (env : Env) (comm : String) (s : PoolState) :
    (getConnection env none comm s).2.currentRpcIndex
        = (getNextRpcUrl env s).2.currentRpcIndex ∧
    (getConnection env none comm s).2.rpcUrls = (getNextRpcUrl env s).2.rpcUrls := by
  unfold getConnection newConnection
  simp only [truthy, Bool.false_eq_true, if_false]
  cases hdc : (getNextRpcUrl env s).2.defaultConnection <;> simp [hdc]

/-- Claim C10: every no-argument `getConnection` call advances the
round-robin cursor by one modulo the list length — even when it returns
the existing cached connection unchanged — so an interleaved
`getFreshConnection` receives the next position instead of the current
one. -/
theorem C10_no_arg_consumes_cursor (env : Env) (comm : String) (s : PoolState)
    (hne : s.rpcUrls ≠ []) :
    (getConnection env none comm s).2.currentRpcIndex
        = (s.currentRpcIndex + 1) % s.rpcUrls.length ∧
    (∀ c, s.defaultConnection = some c → (getConnection env none comm s).1 = c) ∧
    (getFreshConnection env comm s).1.rpcEndpoint
        = s.rpcUrls.getD s.currentRpcIndex "undefined" ∧
    (getFreshConnection env comm (getConnection env none comm s).2).1.rpcEndpoint
        = s.rpcUrls.getD ((s.currentRpcIndex + 1) % s.rpcUrls.length) "undefined" := by
  have hnx := getNextRpcUrl_cached env s hne
  have hfields := getConnection_none_pool_fields env comm s
  have hpostne : (getConnection env none comm s).2.rpcUrls ≠ [] := by
    rw [hfields.2, hnx]
    exact hne
  refine ⟨?_, ?_, ?_, ?_⟩
  · rw [hfields.1, hnx]
  · intro c hc
    rw [getConnection_none_cached env comm s c hc]
  · unfold getFreshConnection newConnection
    rw [hnx]
  · unfold getFreshConnection newConnection
    rw [getNextRpcUrl_cached env (getConnection env none comm s).2 hpostne]
    show (getConnection env none comm s).2.rpcUrls.getD
        (getConnection env none comm s).2.currentRpcIndex "undefined" = _
    rw [hfields.1, hfields.2, hnx]

/-- Concrete witness for C10: with endpoints `a, b` and cursor 0, a
no-argument `getConnection` returns the cached connection yet moves the
cursor to 1, and a following `getFreshConnection` connects to `b` where a
directly interleaved one would have connected to `a`. -/
theorem C10_no_arg_consumes_cursor_witness :
    (getConnection ⟨none, none⟩ none "confirmed"
        { rpcUrls := ["a", "b"], currentRpcIndex := 0,
          defaultConnection := some ⟨"a", "confirmed", 0⟩, nextConnId := 1 }).2.currentRpcIndex
      = 1 ∧
    (getConnection ⟨none, none⟩ none "confirmed"
        { rpcUrls := ["a", "b"], currentRpcIndex := 0,
          defaultConnection := some ⟨"a", "confirmed", 0⟩, nextConnId := 1 }).1
      = ⟨"a", "confirmed", 0⟩ ∧
    (getFreshConnection ⟨none, none⟩ "confirmed"
        { rpcUrls := ["a", "b"], currentRpcIndex := 0,
          defaultConnection := some ⟨"a", "confirmed", 0⟩, nextConnId := 1 }).1.rpcEndpoint
      = "a" ∧
    (getFreshConnection ⟨none, none⟩ "confirmed"
        (getConnection ⟨none, none⟩ none "confirmed"
          { rpcUrls := ["a", "b"], currentRpcIndex := 0,
            defaultConnection := some ⟨"a", "confirmed", 0⟩, nextConnId := 1 }).2).1.rpcEndpoint
      = "b" := by
  have h := C10_no_arg_consumes_cursor ⟨none, none⟩ "confirmed"
    { rpcUrls := ["a", "b"], currentRpcIndex := 0,
      defaultConnection := some ⟨"a", "confirmed", 0⟩, nextConnId := 1 }
    (by decide)
  exact ⟨h.1, h.2.1 ⟨"a", "confirmed", 0⟩ rfl, h.2.2.1, h.2.2.2⟩

/-! ## Supporting lemmas and claims: Blinks executor -/

theorem str_append_assoc (a b c : String) : a ++ b ++ c = a ++ (b ++ c) :=
  String.ext (by simp [String.data_append, List.append_assoc])

/-- Claim C4: `decodeTransaction` tries the versioned parse first; on any
versioned-parse failure it falls back to the legacy parse, yielding a
legacy-typed result when that succeeds; when both parses fail, the legacy
parse error propagates with no further fallback. -/
theorem C4_decode_trial_order
    (vD : List Nat → Except String VersionedTx)
    (lF : List Nat → Except String LegacyTx)
    (b64 : String → List Nat) (tx : String) :
    (∀ v, vD (b64 tx) = .ok v →
        decodeTransaction vD lF b64 tx = .ok (.versioned v)) ∧
    (∀ e l, vD (b64 tx) = .error e → lF (b64 tx) = .ok l →
        decodeTransaction vD lF b64 tx = .ok (.legacy l)) ∧
    (∀ e e2, vD (b64 tx) = .error e → lF (b64 tx) = .error e2 →
        decodeTransaction vD lF b64 tx = .error e2) := by
  refine ⟨?_, ?_, ?_⟩
  · intro v hv
    simp only [decodeTransaction]
    rw [hv]
  · intro e l hv hl
    simp only [decodeTransaction]
    rw [hv, hl]
  · intro e e2 hv hl
    simp only [decodeTransaction]
    rw [hv, hl]

/-- Concrete witness for C4: a buffer rejected by the versioned parser but
accepted by the legacy parser decodes as legacy; a versioned-parsable
buffer decodes as versioned; one rejected by both propagates the legacy
error. -/
theorem C4_decode_trial_order_witness :
    decodeTransaction (fun _ => .error "bad version") (fun b => .ok ⟨b⟩)
        (fun _ => [1, 2]) "AQI=" = .ok (.legacy ⟨[1, 2]⟩) ∧
    decodeTransaction (fun b => .ok ⟨b⟩) (fun b => .ok ⟨b⟩)
        (fun _ => [3]) "Aw==" = .ok (.versioned ⟨[3]⟩) ∧
    decodeTransaction (fun _ => .error "v") (fun _ => .error "legacy fail")
        (fun _ => []) "zz" = .error "legacy fail" := by
  refine ⟨?_, ?_, ?_⟩
  · exact (C4_decode_trial_order (fun _ => .error "bad version") (fun b => .ok ⟨b⟩)
      (fun _ => [1, 2]) "AQI=").2.1 "bad version" ⟨[1, 2]⟩ rfl rfl
  · exact (C4_decode_trial_order (fun b => .ok ⟨b⟩) (fun b => .ok ⟨b⟩)
      (fun _ => [3]) "Aw==").1 ⟨[3]⟩ rfl
  · exact (C4_decode_trial_order (fun _ => .error "v") (fun _ => .error "legacy fail")
      (fun _ => []) "zz").2.2 "v" "legacy fail" rfl rfl

/-- Claim C5: for a decodable artifact, `simulate` does not throw on an
on-chain error: a non-null `err` in the dry-run response yields
`success = false` with the stringified error, a null `err` yields
`success = true` with no error; logs and compute units are carried over
from the response in both cases. -/
theorem C5_simulate_never_throws_on_chain_error
    (vD : List Nat → Except String VersionedTx)
    (lF : List Nat → Except String LegacyTx)
    (b64 : String → List Nat) (stringify : TxErr → String)
    (rpc : DecodedTx → SimResponseValue) (btx : BlinkTransaction) (tx : DecodedTx)
    (hdec : decodeTransaction vD lF b64 btx.transaction = .ok tx) :
    (∀ e, (rpc tx).err = some e →
        simulate vD lF b64 stringify rpc btx =
          .ok { success := false, logs := (rpc tx).logs,
                error := some (stringify e), unitsConsumed := (rpc tx).unitsConsumed }) ∧
    ((rpc tx).err = none →
        simulate vD lF b64 stringify rpc btx =
          .ok { success := true, logs := (rpc tx).logs,
                error := none, unitsConsumed := (rpc tx).unitsConsumed }) := by
  constructor
  · intro e he
    simp only [simulate]
    rw [hdec]
    simp [he]
  · intro he
    simp only [simulate]
    rw [hdec]
    simp [he]

/-- Concrete witness for C5: a dry-run reporting an on-chain error yields
a structured failure result, a clean dry-run a success result. -/
theorem C5_simulate_never_throws_on_chain_error_witness :
    simulate (fun _ => .error "v") (fun b => .ok ⟨b⟩) (fun _ => [7]) TxErr.details
        (fun _ => { err := some ⟨"\x7b\"InstructionError\":[0]\x7d"⟩,
                    logs := some ["log1"], unitsConsumed := some 5 })
        { transaction := "Bw==", message := none }
      = .ok { success := false, logs := some ["log1"],
              error := some "\x7b\"InstructionError\":[0]\x7d", unitsConsumed := some 5 } ∧
    simulate (fun _ => .error "v") (fun b => .ok ⟨b⟩) (fun _ => [7]) TxErr.details
        (fun _ => { err := none, logs := none, unitsConsumed := none })
        { transaction := "Bw==", message := none }
      = .ok { success := true, logs := none, error := none, unitsConsumed := none } := by
  constructor
  · exact (C5_simulate_never_throws_on_chain_error (fun _ => .error "v") (fun b => .ok ⟨b⟩)
      (fun _ => [7]) TxErr.details
      (fun _ => { err := some ⟨"\x7b\"InstructionError\":[0]\x7d"⟩,
                  logs := some ["log1"], unitsConsumed := some 5 })
      { transaction := "Bw==", message := none } (.legacy ⟨[7]⟩) rfl).1
      ⟨"\x7b\"InstructionError\":[0]\x7d"⟩ rfl
  · exact (C5_simulate_never_throws_on_chain_error (fun _ => .error "v") (fun b => .ok ⟨b⟩)
      (fun _ => [7]) TxErr.details
      (fun _ => { err := none, logs := none, unitsConsumed := none })
      { transaction := "Bw==", message := none } (.legacy ⟨[7]⟩) rfl).2 rfl

/-- Claim C6: for a decodable artifact, a caller-supplied signing function
that throws makes `signAndSend` propagate that exception, and no RPC
effect is performed — in particular the broadcast step is never reached. -/
theorem C6_sign_failure_no_broadcast
    (vD : List Nat → Except String VersionedTx)
    (lF : List Nat → Except String LegacyTx)
    (b64 : String → List Nat) (serialize : DecodedTx → List Nat) (rpc : SendRpc)
    (btx : BlinkTransaction) (signFn : DecodedTx → Except String DecodedTx)
    (tx : DecodedTx) (hdec : decodeTransaction vD lF b64 btx.transaction = .ok tx)
    (msg : String) (hsign : signFn tx = .error msg) :
    signAndSend vD lF b64 serialize rpc btx signFn = (.error msg, []) ∧
    ∀ raw sp mr, RpcEvent.sentRaw raw sp mr ∉
        (signAndSend vD lF b64 serialize rpc btx signFn).2 := by
  have hmain : signAndSend vD lF b64 serialize rpc btx signFn = (.error msg, []) := by
    simp only [signAndSend]
    rw [hdec]
    simp [hsign]
  refine ⟨hmain, fun raw sp mr => ?_⟩
  rw [hmain]
  simp

/-- Concrete witness for C6: a signer that throws "signer exploded" makes
`signAndSend` fail with that message and an empty RPC trace. -/
theorem C6_sign_failure_no_broadcast_witness :
    signAndSend (fun _ => .error "v") (fun b => .ok ⟨b⟩) (fun _ => [9])
        (fun _ => [9]) ⟨fun _ => .ok "sig", ("bh", 10), fun _ => .ok ()⟩
        { transaction := "CQ==", message := none }
        (fun _ => .error "signer exploded")
      = (.error "signer exploded", []) ∧
    RpcEvent.sentRaw [9] false 3 ∉
      (signAndSend (fun _ => .error "v") (fun b => .ok ⟨b⟩) (fun _ => [9])
        (fun _ => [9]) ⟨fun _ => .ok "sig", ("bh", 10), fun _ => .ok ()⟩
        { transaction := "CQ==", message := none }
        (fun _ => .error "signer exploded")).2 := by
  have h := C6_sign_failure_no_broadcast (fun _ => .error "v") (fun b => .ok ⟨b⟩)
    (fun _ => [9]) (fun _ => [9]) ⟨fun _ => .ok "sig", ("bh", 10), fun _ => .ok ()⟩
    { transaction := "CQ==", message := none } (fun _ => .error "signer exploded")
    (.legacy ⟨[9]⟩) rfl "signer exploded" rfl
  exact ⟨h.1, h.2 [9] false 3⟩

/-- Claim C7: a non-2xx build response makes `getTransaction` fail with an
error carrying the HTTP status and the response body text, falling back
to "Unknown error" when the body cannot be read; for a 422 response the
message contains "422". -/
theorem C7_build_error_carries_status
    (fetch : FetchRequest → FetchResponse) (blinkUrl wallet : String)
    (params : List (String × ParamValue))
    (hko : (fetch (buildRequest blinkUrl wallet params)).ok = false) :
    (getTransaction fetch blinkUrl wallet params).2 =
      .error (buildErrorMessage (fetch (buildRequest blinkUrl wallet params)).status
        ((fetch (buildRequest blinkUrl wallet params)).textResult.getD "Unknown error")) ∧
    ((fetch (buildRequest blinkUrl wallet params)).textResult = none →
      (getTransaction fetch blinkUrl wallet params).2 =
        .error (buildErrorMessage
          (fetch (buildRequest blinkUrl wallet params)).status "Unknown error")) ∧
    ((fetch (buildRequest blinkUrl wallet params)).status = 422 →
      ∃ pre post, (getTransaction fetch blinkUrl wallet params).2 =
        .error (pre ++ "422" ++ post)) := by
  have h1 : (getTransaction fetch blinkUrl wallet params).2 =
      .error (buildErrorMessage (fetch (buildRequest blinkUrl wallet params)).status
        ((fetch (buildRequest blinkUrl wallet params)).textResult.getD "Unknown error")) := by
    simp only [getTransaction]
    simp [hko]
  refine ⟨h1, fun htext => by rw [h1, htext]; rfl, fun hst => ?_⟩
  refine ⟨"Failed to get blink transaction: ",
    " - " ++ (fetch (buildRequest blinkUrl wallet params)).textResult.getD "Unknown error",
    ?_⟩
  rw [h1, hst]
  unfold buildErrorMessage
  rw [str_append_assoc]
  rfl

/-- Concrete witness for C7: a 422 build response with body "bad input"
produces the expected error message, and a 500 response whose body read
fails falls back to "Unknown error". -/
theorem C7_build_error_carries_status_witness :
    (getTransaction
        (fun _ => { ok := false, status := 422, statusText := "Unprocessable",
                    textResult := some "bad input", jsonTx := none })
        "https://host/a" "w" []).2
      = .error (buildErrorMessage 422 "bad input") ∧
    (getTransaction
        (fun _ => { ok := false, status := 500, statusText := "ISE",
                    textResult := none, jsonTx := none })
        "https://host/a" "w" []).2
      = .error (buildErrorMessage 500 "Unknown error") ∧
    (∃ pre post,
      (getTransaction
        (fun _ => { ok := false, status := 422, statusText := "Unprocessable",
                    textResult := some "bad input", jsonTx := none })
        "https://host/a" "w" []).2
      = .error (pre ++ "422" ++ post)) := by
  refine ⟨?_, ?_, ?_⟩
  · exact (C7_build_error_carries_status
      (fun _ => { ok := false, status := 422, statusText := "Unprocessable",
                  textResult := some "bad input", jsonTx := none })
      "https://host/a" "w" [] rfl).1
  · exact (C7_build_error_carries_status
      (fun _ => { ok := false, status := 500, statusText := "ISE",
                  textResult := none, jsonTx := none })
      "https://host/a" "w" [] rfl).2.1 rfl
  · exact (C7_build_error_carries_status
      (fun _ => { ok := false, status := 422, statusText := "Unprocessable",
                  textResult := some "bad input", jsonTx := none })
      "https://host/a" "w" [] rfl).2.2 rfl

/-- Claim C8: `getTransaction` strips an optional `blink:` prefix from the
action reference and merges the params into the URL's query string, each
param overwriting an existing key of the same name; the reference
`blink:https://host/path?x=1` with params `{amount: 100}` produces a POST
to `https://host/path?x=1&amount=100` with JSON body `{account: wallet}`. -/
theorem C8_build_request_url_merge (wallet : String) :
    (buildRequest "blink:https://host/path?x=1" wallet [("amount", .num 100)]).url
      = "https://host/path?x=1&amount=100" ∧
    (buildRequest "blink:https://host/path?x=1" wallet [("amount", .num 100)]).method
      = .POST ∧
    (buildRequest "blink:https://host/path?x=1" wallet [("amount", .num 100)]).body
      = some (jsonAccountBody wallet) ∧
    (buildRequest "blink:https://host/path?x=1" wallet [("amount", .num 100)]).contentType
      = some "application/json" ∧
    (∀ url, jsStartsWith url "blink:" = false → parseBlinkUrl url = url) ∧
    (∀ url, jsStartsWith url "blink:" = true → parseBlinkUrl url = jsSlice url 6) ∧
    (buildRequest "https://host/path?x=1" wallet [("x", .str "2")]).url
      = "https://host/path?x=2" ∧
    (∀ (q : List (String × String)) (k v : String),
      (searchParamsSet q k v).lookup k = some v) := by
  have hset : ∀ (q : List (String × String)) (k v : String),
      (searchParamsSet q k v).lookup k = some v := by
    intro q k v
    induction q with
    | nil => simp [searchParamsSet, List.lookup]
    | cons p rest ih =>
      obtain ⟨k0, v0⟩ := p
      by_cases hk : k0 = k
      · simp [searchParamsSet, hk, List.lookup]
      · have hbeq : (k == k0) = false := by
          simp [beq_eq_false_iff_ne, Ne.symm hk]
        simp [searchParamsSet, hk, List.lookup, hbeq, ih]
  have hurl1 : mergeParams (parseBlinkUrl "blink:https://host/path?x=1")
      [("amount", ParamValue.num 100)] = "https://host/path?x=1&amount=100" := by decide
  have hurl2 : mergeParams (parseBlinkUrl "https://host/path?x=1")
      [("x", ParamValue.str "2")] = "https://host/path?x=2" := by decide
  refine ⟨hurl1, rfl, rfl, rfl, ?_, ?_, hurl2, hset⟩
  · intro url h
    simp [parseBlinkUrl, h]
  · intro url h
    simp [parseBlinkUrl, h]

/-- Concrete witness for C8: the end-to-end scenario at a concrete wallet
address, a no-prefix URL passing through unchanged, and an overwrite of
an existing query key. -/
theorem C8_build_request_url_merge_witness :
    (buildRequest "blink:https://host/path?x=1" "WALLET" [("amount", .num 100)]).url
      = "https://host/path?x=1&amount=100" ∧
    (buildRequest "blink:https://host/path?x=1" "WALLET" [("amount", .num 100)]).body
      = some (jsonAccountBody "WALLET") ∧
    parseBlinkUrl "https://plain.example/a" = "https://plain.example/a" ∧
    parseBlinkUrl "blink:https://p.example/a" = jsSlice "blink:https://p.example/a" 6 ∧
    (searchParamsSet [("x", "1")] "x" "2").lookup "x" = some "2" := by
  have h := C8_build_request_url_merge "WALLET"
  exact ⟨h.1, h.2.2.1, h.2.2.2.2.1 "https://plain.example/a" (by decide),
    h.2.2.2.2.2.1 "blink:https://p.example/a" (by decide),
    h.2.2.2.2.2.2.2 [("x", "1")] "x" "2"⟩

/-- Claim C9: `inspect` resolves each linked action's relative href (one
not starting with "http") against the origin of the describing URL, and
passes absolute hrefs (which start with "http") through unchanged; the
relative href "/foo" with describing URL "https://x.com/bar" resolves to
"https://x.com/foo", dropping the original path segment. -/
theorem C9_inspect_href_resolution :
    (∀ origin href, jsStartsWith href "http" = true →
        resolveHref origin href = href) ∧
    (∀ origin href, jsStartsWith href "http" = false →
        resolveHref origin href = origin ++ href) ∧
    (∀ blinkUrl (md : BlinkMetadata) l, md.links = some l →
        ∃ main, (inspect blinkUrl md).actions = main ++ l.actions.map (fun a =>
          { label := a.label,
            href := resolveHref (parseURL (parseBlinkUrl blinkUrl)).origin a.href,
            parameters := a.parameters })) ∧
    (inspect "https://x.com/bar"
        { label := "L", icon := "", description := "",
          links := some { actions := [{ label := "A", href := "/foo",
                                        parameters := none }] } }).actions
      = [{ label := "A", href := "https://x.com/foo", parameters := none }] := by
  refine ⟨?_, ?_, ?_, by decide⟩
  · intro origin href h
    simp [resolveHref, h]
  · intro origin href h
    simp [resolveHref, h]
  · intro blinkUrl md l hl
    simp only [inspect, hl]
    exact ⟨_, rfl⟩

/-- Concrete witness for C9: a relative href is prefixed with the origin,
an absolute href passes through, and the linked-action list of a concrete
metadata value has the resolved shape. -/
theorem C9_inspect_href_resolution_witness :
    resolveHref "https://x.com" "https://other.example/z" = "https://other.example/z" ∧
    resolveHref "https://x.com" "/foo" = "https://x.com" ++ "/foo" ∧
    (∃ main,
      (inspect "https://x.com/bar"
          { label := "L", icon := "", description := "",
            links := some { actions := [{ label := "A", href := "/foo",
                                          parameters := none }] } }).actions
        = main ++ [{ label := "A",
                     href := resolveHref
                       (parseURL (parseBlinkUrl "https://x.com/bar")).origin "/foo",
                     parameters := none }]) := by
  have h := C9_inspect_href_resolution
  exact ⟨h.1 "https://x.com" "https://other.example/z" (by decide),
    h.2.1 "https://x.com" "/foo" (by decide),
    h.2.2.1 "https://x.com/bar"
      { label := "L", icon := "", description := "",
        links := some { actions := [{ label := "A", href := "/foo",
                                      parameters := none }] } }
      { actions := [{ label := "A", href := "/foo", parameters := none }] } rfl⟩

end SolanaDefi
